import Mathlib

/-
Verification of the helgoboss-midi core: the bit/byte codec (`bit_util.rs`,
`util.rs`) and the 14-bit Control Change composite message
(`control_change_14_bit_message.rs`).

Machine integers (`u8`, `u16`) are embedded as `Nat`; a `% 256` appears
exactly where a Rust `u8` operation can discard high bits.  Fallible
construction (Rust `assert!` panics and validated constructors) is embedded
as `Except`; the `.expect("impossible")` call inside `lsb_controller_number`
is embedded as an `Option`.
-/

namespace HelgobossMidi

/-- Modelled from the spec: the error taxonomy of section 7 — `OutOfRange`
for range-validated scalar construction and `UnpairedControllerNumber` for
the composite-message constructor.  The error conditions themselves are not
defined in the sources under verification, only raised by them. -/
inductive MidiConstructionError where
  | outOfRange
  | unpairedControllerNumber
  deriving DecidableEq

/-- Modelled from the spec: `Channel` is an integer in [0, 15] with a
validated constructor failing on out-of-range input and an internal
range-unchecked construction path; the type definition itself is not under
`src/`. -/
structure Channel where
  val : Nat
  deriving DecidableEq

/-- Modelled from the spec: validated `Channel` factory — fails with
`OutOfRange` when the raw integer exceeds 4 bits. -/
def Channel.new (raw : Nat) : Except MidiConstructionError Channel :=
  if raw ≤ 15 then .ok ⟨raw⟩ else .error .outOfRange

/-- Modelled from the spec: lossless conversion back to the underlying
integer. -/
def Channel.get (c : Channel) : Nat := c.val

/-- Modelled from the spec: the internal range-unchecked construction path,
used only where the value is range-correct by construction. -/
def Channel.new_unchecked (raw : Nat) : Channel := ⟨raw⟩

/-- Modelled from the spec: `U7` is an integer in [0, 127]; the type
definition itself is not under `src/`. -/
structure U7 where
  val : Nat
  deriving DecidableEq

/-- Modelled from the spec: validated `U7` factory — fails with `OutOfRange`
when the raw integer exceeds 7 bits. -/
def U7.new (raw : Nat) : Except MidiConstructionError U7 :=
  if raw ≤ 127 then .ok ⟨raw⟩ else .error .outOfRange

/-- Modelled from the spec: lossless conversion back to the underlying
integer. -/
def U7.get (v : U7) : Nat := v.val

/-- Modelled from the spec: `U14` is an integer in [0, 16383]; the type
definition itself is not under `src/`. -/
structure U14 where
  val : Nat
  deriving DecidableEq

/-- Modelled from the spec: validated `U14` factory — fails with
`OutOfRange` when the raw integer exceeds 14 bits. -/
def U14.new (raw : Nat) : Except MidiConstructionError U14 :=
  if raw ≤ 16383 then .ok ⟨raw⟩ else .error .outOfRange

/-- Modelled from the spec: lossless conversion back to the underlying
integer. -/
def U14.get (v : U14) : Nat := v.val

/-- Modelled from the spec: the internal range-unchecked construction path
for `U14`. -/
def U14.new_unchecked (raw : Nat) : U14 := ⟨raw⟩

/-- Modelled from the spec: `ControllerNumber` is an integer in [0, 127],
kept as a type distinct from `U7`; the type definition itself is not under
`src/`. -/
structure ControllerNumber where
  val : Nat
  deriving DecidableEq

/-- Modelled from the spec: validated `ControllerNumber` factory — fails
with `OutOfRange` when the raw integer exceeds 7 bits. -/
def ControllerNumber.new (raw : Nat) : Except MidiConstructionError ControllerNumber :=
  if raw ≤ 127 then .ok ⟨raw⟩ else .error .outOfRange

/-- Modelled from the spec: lossless conversion back to the underlying
integer. -/
def ControllerNumber.get (n : ControllerNumber) : Nat := n.val

/-- Modelled from the spec: the controller pairing convention — an MSB
controller number in [0, 31] is paired with LSB controller number
`n + 32`; any number outside [0, 31] has no paired LSB counterpart.  The
pairing table itself is not under `src/` (only its caller in
`control_change_14_bit_message.rs` is). -/
def ControllerNumber.corresponding_14_bit_lsb_controller_number
    (n : ControllerNumber) : Option ControllerNumber :=
  if n.val ≤ 31 then some ⟨n.val + 32⟩ else none

namespace bit_util

/-- `bit_util.rs`: `U7(((value.get() >> 7) & 0x7f) as u8)`. -/
def extract_high_7_bit_value_from_14_bit_value (value : U14) : U7 :=
  ⟨(value.get >>> 7) &&& 0x7f⟩

/-- `bit_util.rs`: `U7((value.get() & 0x7f) as u8)`. -/
def extract_low_7_bit_value_from_14_bit_value (value : U14) : U7 :=
  ⟨value.get &&& 0x7f⟩

/-- `bit_util.rs`: `U14((u16::from(high) << 7) | u16::from(low))`. -/
def build_14_bit_value_from_two_7_bit_values (high low : U7) : U14 :=
  ⟨((high.val <<< 7) % 65536) ||| low.val⟩

/-- `bit_util.rs`: `type_byte | channel.get()`. -/
def build_status_byte (type_byte : Nat) (channel : Channel) : Nat :=
  type_byte ||| channel.get

/-- `bit_util.rs`: `Channel(byte & 0x0f)`. -/
def extract_channel_from_status_byte (byte : Nat) : Channel :=
  ⟨byte &&& 0x0f⟩

end bit_util

namespace util

/-- `util.rs`: `Channel::new_unchecked((byte >> 4) & 0x0f)`. -/
def extract_high_nibble_from_byte (byte : Nat) : Channel :=
  Channel.new_unchecked ((byte >>> 4) &&& 0x0f)

/-- `util.rs`: `Channel::new_unchecked(byte & 0x0f)`. -/
def extract_low_nibble_from_byte (byte : Nat) : Channel :=
  Channel.new_unchecked (byte &&& 0x0f)

/-- `util.rs`: `((u16::from(value) >> 7) & 0x7f) as u8`, returning a plain
`SevenBitValue` byte. -/
def extract_high_7_bit_value_from_14_bit_value (value : U14) : Nat :=
  (value.get >>> 7) &&& 0x7f

/-- `util.rs`: `(u16::from(value) & 0x7f) as u8`. -/
def extract_low_7_bit_value_from_14_bit_value (value : U14) : Nat :=
  value.get &&& 0x7f

/-- `util.rs`: `(u8::from(high_nibble) << 4) | u8::from(low_nibble)` — the
`u8` shift discards bits above the byte, hence the `% 256`. -/
def build_byte_from_nibbles (high_nibble low_nibble : Channel) : Nat :=
  ((high_nibble.val <<< 4) % 256) ||| low_nibble.val

/-- `util.rs`: `U14::new_unchecked(((high as u16) << 7) | (low as u16))`
(the `debug_assert!` guards are debug-build-only and do not alter the
release value). -/
def build_14_bit_value_from_two_7_bit_values (high low : Nat) : U14 :=
  U14.new_unchecked (((high <<< 7) % 65536) ||| low)

end util

/-- Modelled from the spec: the control-change message shape that the
consumed Message Factory capability of section 6 produces — a record of
(channel, controller number, 7-bit value).  The concrete message types are
outside the core under verification. -/
structure ControlChangeShortMessage where
  channel : Channel
  controller_number : ControllerNumber
  value : U7
  deriving DecidableEq

/-- `control_change_14_bit_message.rs`: the struct
`{ channel, msb_controller_number, value }`. -/
structure ControlChange14BitMessage where
  channel : Channel
  msb_controller_number : ControllerNumber
  value : U14
  deriving DecidableEq

/-- `control_change_14_bit_message.rs`: `ControlChange14BitMessage::new` —
asserts that `msb_controller_number.corresponding_14_bit_lsb_controller_number()`
is `Some`, then stores the triple as given.  The panic of the failed
`assert!` is embedded as the `UnpairedControllerNumber` error. -/
def ControlChange14BitMessage.new (channel : Channel)
    (msb_controller_number : ControllerNumber) (value : U14) :
    Except MidiConstructionError ControlChange14BitMessage :=
  if msb_controller_number.corresponding_14_bit_lsb_controller_number.isSome then
    .ok ⟨channel, msb_controller_number, value⟩
  else
    .error .unpairedControllerNumber

/-- `control_change_14_bit_message.rs`: `lsb_controller_number` recomputes
`corresponding_14_bit_lsb_controller_number` of the stored MSB controller
number on every call; the `.expect("impossible")` panic path is embedded as
the `none` case of the returned `Option`. -/
def ControlChange14BitMessage.lsb_controller_number
    (m : ControlChange14BitMessage) : Option ControllerNumber :=
  m.msb_controller_number.corresponding_14_bit_lsb_controller_number

/-- `control_change_14_bit_message.rs`: `to_short_messages` — builds, via
the factory, the MSB-addressed message carrying the high 7 bits first and
the LSB-addressed message carrying the low 7 bits second.  The factory
`T::control_change` is embedded as the function argument `f`; the potential
panic inside `lsb_controller_number()` surfaces as `none`. -/
def ControlChange14BitMessage.to_short_messages {α : Type}
    (f : Channel → ControllerNumber → U7 → α)
    (m : ControlChange14BitMessage) : Option (α × α) :=
  match m.lsb_controller_number with
  | some lsb =>
      some
        (f m.channel m.msb_controller_number
          (bit_util.extract_high_7_bit_value_from_14_bit_value m.value),
         f m.channel lsb
          (bit_util.extract_low_7_bit_value_from_14_bit_value m.value))
  | none => none

/-! Arithmetic helper lemmas about the `Nat` bit operations the codec uses. -/

lemma nat_and_127_eq_mod (x : Nat) : x &&& 0x7f = x % 128 := by
  have h := Nat.and_pow_two_sub_one_eq_mod x 7
  norm_num at h
  exact h

lemma nat_and_15_eq_mod (x : Nat) : x &&& 0x0f = x % 16 := by
  have h := Nat.and_pow_two_sub_one_eq_mod x 4
  norm_num at h
  exact h

lemma nat_or_mul_128 (a b : Nat) (hb : b < 128) : (128 * a) ||| b = 128 * a + b := by
  have key := Nat.mul_add_lt_is_or (i := 7) (b := b) (by omega) a
  norm_num at key
  omega

lemma nat_or_mul_16 (a b : Nat) (hb : b < 16) : (16 * a) ||| b = 16 * a + b := by
  have key := Nat.mul_add_lt_is_or (i := 4) (b := b) (by omega) a
  norm_num at key
  omega

lemma nat_high7_eq_div (v : Nat) (hv : v < 16384) : v >>> 7 &&& 0x7f = v / 128 := by
  rw [Nat.shiftRight_eq_div_pow, nat_and_127_eq_mod]
  norm_num
  omega

lemma nat_join14_split14 (v : Nat) (hv : v < 16384) :
    (((v >>> 7 &&& 0x7f) <<< 7) % 65536) ||| (v &&& 0x7f) = v := by
  rw [Nat.shiftRight_eq_div_pow, nat_and_127_eq_mod, nat_and_127_eq_mod, Nat.shiftLeft_eq]
  norm_num
  rw [Nat.mod_eq_of_lt (by omega : v / 128 < 128)]
  rw [Nat.mul_comm, Nat.mod_eq_of_lt (by omega : 128 * (v / 128) < 65536)]
  rw [nat_or_mul_128 _ _ (by omega)]
  omega

lemma nat_split14_join14_high (hi lo : Nat) (hh : hi < 128) (hl : lo < 128) :
    ((((hi <<< 7) % 65536) ||| lo) >>> 7) &&& 0x7f = hi := by
  rw [Nat.shiftLeft_eq]
  norm_num
  rw [Nat.mul_comm, Nat.mod_eq_of_lt (by omega : 128 * hi < 65536)]
  rw [nat_or_mul_128 _ _ hl]
  rw [Nat.shiftRight_eq_div_pow, nat_and_127_eq_mod]
  norm_num
  have h2 : (128 * hi + lo) / 128 = hi := by omega
  rw [h2, Nat.mod_eq_of_lt hh]

lemma nat_split14_join14_low (hi lo : Nat) (hh : hi < 128) (hl : lo < 128) :
    (((hi <<< 7) % 65536) ||| lo) &&& 0x7f = lo := by
  rw [Nat.shiftLeft_eq]
  norm_num
  rw [Nat.mul_comm, Nat.mod_eq_of_lt (by omega : 128 * hi < 65536)]
  rw [nat_or_mul_128 _ _ hl]
  rw [nat_and_127_eq_mod]
  omega

lemma nat_join_nibbles_split (b : Nat) (hb : b < 256) :
    (((b >>> 4 &&& 0x0f) <<< 4) % 256) ||| (b &&& 0x0f) = b := by
  rw [Nat.shiftRight_eq_div_pow, nat_and_15_eq_mod, nat_and_15_eq_mod, Nat.shiftLeft_eq]
  norm_num
  rw [Nat.mod_eq_of_lt (by omega : b / 16 < 16)]
  rw [Nat.mul_comm, Nat.mod_eq_of_lt (by omega : 16 * (b / 16) < 256)]
  rw [nat_or_mul_16 _ _ (by omega)]
  omega

lemma nat_split_nibbles_join_high (hi lo : Nat) (hh : hi < 16) (hl : lo < 16) :
    ((((hi <<< 4) % 256) ||| lo) >>> 4) &&& 0x0f = hi := by
  rw [Nat.shiftLeft_eq]
  norm_num
  rw [Nat.mul_comm, Nat.mod_eq_of_lt (by omega : 16 * hi < 256)]
  rw [nat_or_mul_16 _ _ hl]
  rw [Nat.shiftRight_eq_div_pow, nat_and_15_eq_mod]
  norm_num
  have h2 : (16 * hi + lo) / 16 = hi := by omega
  rw [h2, Nat.mod_eq_of_lt hh]

lemma nat_split_nibbles_join_low (hi lo : Nat) (hh : hi < 16) (hl : lo < 16) :
    (((hi <<< 4) % 256) ||| lo) &&& 0x0f = lo := by
  rw [Nat.shiftLeft_eq]
  norm_num
  rw [Nat.mul_comm, Nat.mod_eq_of_lt (by omega : 16 * hi < 256)]
  rw [nat_or_mul_16 _ _ hl]
  rw [nat_and_15_eq_mod]
  omega

/-! Claim theorems. -/

/-- C4: the 14-bit split and join are mutually inverse — joining the high
and low 7-bit halves extracted from any `U14` value `v` gives back `v`
(both for the typed `bit_util` functions and for the raw `util` ones), and
extracting from the value built out of any two `U7` halves gives back
exactly those halves. -/
theorem fourteen_bit_split_join_inverse (v hi lo : Nat)
    (hv : v ≤ 16383) (hh : hi ≤ 127) (hl : lo ≤ 127) :
    bit_util.build_14_bit_value_from_two_7_bit_values
        (bit_util.extract_high_7_bit_value_from_14_bit_value ⟨v⟩)
        (bit_util.extract_low_7_bit_value_from_14_bit_value ⟨v⟩) = ⟨v⟩ ∧
    bit_util.extract_high_7_bit_value_from_14_bit_value
        (bit_util.build_14_bit_value_from_two_7_bit_values ⟨hi⟩ ⟨lo⟩) = ⟨hi⟩ ∧
    bit_util.extract_low_7_bit_value_from_14_bit_value
        (bit_util.build_14_bit_value_from_two_7_bit_values ⟨hi⟩ ⟨lo⟩) = ⟨lo⟩ ∧
    util.build_14_bit_value_from_two_7_bit_values
        (util.extract_high_7_bit_value_from_14_bit_value ⟨v⟩)
        (util.extract_low_7_bit_value_from_14_bit_value ⟨v⟩) = ⟨v⟩ := by
  unfold bit_util.build_14_bit_value_from_two_7_bit_values
    bit_util.extract_high_7_bit_value_from_14_bit_value
    bit_util.extract_low_7_bit_value_from_14_bit_value
    util.build_14_bit_value_from_two_7_bit_values
    util.extract_high_7_bit_value_from_14_bit_value
    util.extract_low_7_bit_value_from_14_bit_value
    U14.new_unchecked U14.get
  refine ⟨?_, ?_, ?_, ?_⟩
  · exact congrArg U14.mk (nat_join14_split14 v (by omega))
  · exact congrArg U7.mk (nat_split14_join14_high hi lo (by omega) (by omega))
  · exact congrArg U7.mk (nat_split14_join14_low hi lo (by omega) (by omega))
  · exact congrArg U14.mk (nat_join14_split14 v (by omega))

/-- C4 witness: the round trips at `v = 1057`, `hi = 8`, `lo = 33`. -/
theorem fourteen_bit_split_join_inverse_concrete :
    bit_util.build_14_bit_value_from_two_7_bit_values
        (bit_util.extract_high_7_bit_value_from_14_bit_value ⟨1057⟩)
        (bit_util.extract_low_7_bit_value_from_14_bit_value ⟨1057⟩) = ⟨1057⟩ ∧
    bit_util.extract_high_7_bit_value_from_14_bit_value
        (bit_util.build_14_bit_value_from_two_7_bit_values ⟨8⟩ ⟨33⟩) = ⟨8⟩ ∧
    bit_util.extract_low_7_bit_value_from_14_bit_value
        (bit_util.build_14_bit_value_from_two_7_bit_values ⟨8⟩ ⟨33⟩) = ⟨33⟩ ∧
    util.build_14_bit_value_from_two_7_bit_values
        (util.extract_high_7_bit_value_from_14_bit_value ⟨1057⟩)
        (util.extract_low_7_bit_value_from_14_bit_value ⟨1057⟩) = ⟨1057⟩ :=
  fourteen_bit_split_join_inverse 1057 8 33 (by decide) (by decide) (by decide)

/-- C7: the nibble split and join are mutually inverse — rebuilding a byte
from its extracted high and low nibbles gives back the byte, and splitting
the byte built from any two 4-bit nibbles gives back exactly those
nibbles. -/
theorem nibble_split_join_inverse (b hi lo : Nat)
    (hb : b ≤ 255) (hh : hi ≤ 15) (hl : lo ≤ 15) :
    util.build_byte_from_nibbles (util.extract_high_nibble_from_byte b)
        (util.extract_low_nibble_from_byte b) = b ∧
    util.extract_high_nibble_from_byte (util.build_byte_from_nibbles ⟨hi⟩ ⟨lo⟩) = ⟨hi⟩ ∧
    util.extract_low_nibble_from_byte (util.build_byte_from_nibbles ⟨hi⟩ ⟨lo⟩) = ⟨lo⟩ := by
  unfold util.build_byte_from_nibbles util.extract_high_nibble_from_byte
    util.extract_low_nibble_from_byte Channel.new_unchecked
  refine ⟨?_, ?_, ?_⟩
  · exact nat_join_nibbles_split b (by omega)
  · exact congrArg Channel.mk (nat_split_nibbles_join_high hi lo (by omega) (by omega))
  · exact congrArg Channel.mk (nat_split_nibbles_join_low hi lo (by omega) (by omega))

/-- C7 witness: the nibble round trips at `b = 0xB5`, `hi = 11`, `lo = 5`. -/
theorem nibble_split_join_inverse_concrete :
    util.build_byte_from_nibbles (util.extract_high_nibble_from_byte 0xB5)
        (util.extract_low_nibble_from_byte 0xB5) = 0xB5 ∧
    util.extract_high_nibble_from_byte (util.build_byte_from_nibbles ⟨11⟩ ⟨5⟩) = ⟨11⟩ ∧
    util.extract_low_nibble_from_byte (util.build_byte_from_nibbles ⟨11⟩ ⟨5⟩) = ⟨5⟩ :=
  nibble_split_join_inverse 0xB5 11 5 (by decide) (by decide) (by decide)

/-- C8: `build_status_byte 0xB0 (channel 5)` returns `0xB5`, and
`extract_channel_from_status_byte 0xB5` returns channel 5, the low nibble
of the status byte. -/
theorem status_byte_composition :
    bit_util.build_status_byte 0xB0 ⟨5⟩ = 0xB5 ∧
    bit_util.extract_channel_from_status_byte 0xB5 = ⟨5⟩ := by
  decide

/-- C9: every channel-producing extraction is total and range-safe — for
every byte, the extracted channel and both extracted nibbles lie in
[0, 15] (so the range-unchecked `Channel` construction they use never
receives an out-of-range value), and the 7-bit extraction functions always
return values in [0, 127]. -/
theorem extraction_range_safety (b v : Nat) :
    (bit_util.extract_channel_from_status_byte b).val ≤ 15 ∧
    (util.extract_low_nibble_from_byte b).val ≤ 15 ∧
    (util.extract_high_nibble_from_byte b).val ≤ 15 ∧
    (bit_util.extract_high_7_bit_value_from_14_bit_value ⟨v⟩).val ≤ 127 ∧
    (bit_util.extract_low_7_bit_value_from_14_bit_value ⟨v⟩).val ≤ 127 ∧
    util.extract_high_7_bit_value_from_14_bit_value ⟨v⟩ ≤ 127 ∧
    util.extract_low_7_bit_value_from_14_bit_value ⟨v⟩ ≤ 127 :=
  ⟨Nat.and_le_right, Nat.and_le_right, Nat.and_le_right,
   Nat.and_le_right, Nat.and_le_right, Nat.and_le_right, Nat.and_le_right⟩

/-- C1: for every `ControlChange14BitMessage` constructed from channel `c`,
a valid MSB controller number `n` and a 14-bit value `v`,
`to_short_messages` returns exactly two control-change messages in this
fixed order — first the one addressed to channel `c` and controller `n`
carrying the high 7 bits of `v` (`v / 128`), second the one addressed to
channel `c` and the LSB controller number `n + 32` carrying the low 7 bits
of `v` (`v % 128`) — whatever factory `f` realizes the messages. -/
theorem cc14_to_short_messages_msb_first_lsb_second {α : Type}
    (f : Channel → ControllerNumber → U7 → α) (c n v : Nat)
    (hn : n ≤ 31) (hv : v ≤ 16383) :
    (ControlChange14BitMessage.new ⟨c⟩ ⟨n⟩ ⟨v⟩).map
        (ControlChange14BitMessage.to_short_messages f) =
      .ok (some (f ⟨c⟩ ⟨n⟩ ⟨v / 128⟩, f ⟨c⟩ ⟨n + 32⟩ ⟨v % 128⟩)) := by
  have hhi : v >>> 7 &&& 0x7f = v / 128 := nat_high7_eq_div v (by omega)
  have hlo : v &&& 0x7f = v % 128 := nat_and_127_eq_mod v
  simp [ControlChange14BitMessage.new,
    ControllerNumber.corresponding_14_bit_lsb_controller_number, hn,
    ControlChange14BitMessage.to_short_messages,
    ControlChange14BitMessage.lsb_controller_number,
    bit_util.extract_high_7_bit_value_from_14_bit_value,
    bit_util.extract_low_7_bit_value_from_14_bit_value, U14.get, Except.map,
    hhi, hlo]

/-- C1 witness: the two ordered messages at channel 5, MSB controller 2,
value 1057, realized by the record-shaped factory. -/
theorem cc14_to_short_messages_msb_first_lsb_second_concrete :
    (ControlChange14BitMessage.new ⟨5⟩ ⟨2⟩ ⟨1057⟩).map
        (ControlChange14BitMessage.to_short_messages ControlChangeShortMessage.mk) =
      .ok (some (⟨⟨5⟩, ⟨2⟩, ⟨8⟩⟩, ⟨⟨5⟩, ⟨34⟩, ⟨33⟩⟩)) :=
  cc14_to_short_messages_msb_first_lsb_second ControlChangeShortMessage.mk 5 2 1057
    (by decide) (by decide)

/-- C2: for every valid MSB controller number `n` in [0, 31], a
`ControlChange14BitMessage` constructed with `n` satisfies
`lsb_controller_number = some (n + 32)`, and the result is derived from the
stored MSB controller number alone — any message with the same stored MSB
field yields the same LSB controller number (in this pure embedding the
accessor trivially returns the identical value on every call and leaves the
message untouched). -/
theorem cc14_lsb_controller_number_pairing (c n v : Nat) (hn : n ≤ 31)
    (m : ControlChange14BitMessage)
    (hm : ControlChange14BitMessage.new ⟨c⟩ ⟨n⟩ ⟨v⟩ = .ok m) :
    m.lsb_controller_number = some ⟨n + 32⟩ ∧
    ∀ m2 : ControlChange14BitMessage,
      m2.msb_controller_number = m.msb_controller_number →
      m2.lsb_controller_number = m.lsb_controller_number := by
  have hm2 : m = ⟨⟨c⟩, ⟨n⟩, ⟨v⟩⟩ := by
    simp [ControlChange14BitMessage.new,
      ControllerNumber.corresponding_14_bit_lsb_controller_number, hn] at hm
    exact hm.symm
  subst hm2
  refine ⟨?_, ?_⟩
  · simp [ControlChange14BitMessage.lsb_controller_number,
      ControllerNumber.corresponding_14_bit_lsb_controller_number, hn]
  · intro m2 h2
    simp [ControlChange14BitMessage.lsb_controller_number, h2]

/-- C2 witness: the pairing at MSB controller number 2 — the LSB controller
number is 34. -/
theorem cc14_lsb_controller_number_pairing_concrete :
    (ControlChange14BitMessage.mk ⟨5⟩ ⟨2⟩ ⟨1057⟩).lsb_controller_number = some ⟨34⟩ :=
  (cc14_lsb_controller_number_pairing 5 2 1057 (by decide)
    ⟨⟨5⟩, ⟨2⟩, ⟨1057⟩⟩ rfl).1

/-- C3: constructing a `ControlChange14BitMessage` fails with the
`UnpairedControllerNumber` condition exactly when the MSB controller number
is outside [0, 31]; for every MSB controller number in [0, 31] the
construction succeeds and stores the (channel, msb_controller_number,
value) triple as given. -/
theorem cc14_new_unpaired_rejection (c n v : Nat) :
    (ControlChange14BitMessage.new ⟨c⟩ ⟨n⟩ ⟨v⟩ =
        .error .unpairedControllerNumber ↔ 31 < n) ∧
    (n ≤ 31 → ControlChange14BitMessage.new ⟨c⟩ ⟨n⟩ ⟨v⟩ = .ok ⟨⟨c⟩, ⟨n⟩, ⟨v⟩⟩) := by
  unfold ControlChange14BitMessage.new
    ControllerNumber.corresponding_14_bit_lsb_controller_number
  by_cases h : n ≤ 31
  all_goals simp [h]
  all_goals omega

/-- C3 witness: MSB controller number 32 is rejected with
`UnpairedControllerNumber`, while 2 is accepted and the triple stored as
given. -/
theorem cc14_new_unpaired_rejection_concrete :
    ControlChange14BitMessage.new ⟨5⟩ ⟨32⟩ ⟨7⟩ =
        .error .unpairedControllerNumber ∧
    ControlChange14BitMessage.new ⟨5⟩ ⟨2⟩ ⟨7⟩ = .ok ⟨⟨5⟩, ⟨2⟩, ⟨7⟩⟩ :=
  ⟨(cc14_new_unpaired_rejection 5 32 7).1.mpr (by decide),
   (cc14_new_unpaired_rejection 5 2 7).2 (by decide)⟩

/-- C5: the end-to-end encoding scenario — constructing
`ControlChange14BitMessage` with channel 5, MSB controller number 2 and
value 1057 yields `msb_controller_number = 2`,
`lsb_controller_number = some 34`, `value = 1057`, and `to_short_messages`
produces, in order, the control-change message (channel 5, controller 2,
value 8) followed by (channel 5, controller 34, value 33). -/
theorem cc14_end_to_end_encoding_scenario :
    (ControlChange14BitMessage.new ⟨5⟩ ⟨2⟩ ⟨1057⟩).map (fun m =>
      (m.msb_controller_number, m.lsb_controller_number, m.value,
        m.to_short_messages ControlChangeShortMessage.mk)) =
      .ok (⟨2⟩, some ⟨34⟩, ⟨1057⟩,
        some (⟨⟨5⟩, ⟨2⟩, ⟨8⟩⟩, ⟨⟨5⟩, ⟨34⟩, ⟨33⟩⟩)) := by
  rfl

/-- C6: constructing a `Channel` from 16, a `U7` from 128, or a `U14` from
16384 via the validated constructor fails with `OutOfRange`; constructing
from the maximum valid value (15, 127 and 16383 respectively) succeeds and
converting back to the underlying integer returns that value losslessly
(likewise for `ControllerNumber` at its bound 127/128). -/
theorem value_type_range_enforcement :
    Channel.new 16 = .error .outOfRange ∧
    U7.new 128 = .error .outOfRange ∧
    U14.new 16384 = .error .outOfRange ∧
    ControllerNumber.new 128 = .error .outOfRange ∧
    (Channel.new 15).map Channel.get = .ok 15 ∧
    (U7.new 127).map U7.get = .ok 127 ∧
    (U14.new 16383).map U14.get = .ok 16383 ∧
    (ControllerNumber.new 127).map ControllerNumber.get = .ok 127 :=
  ⟨rfl, rfl, rfl, rfl, rfl, rfl, rfl, rfl⟩

/-- C10: `build_status_byte` is a plain bitwise OR without masking of the
type byte — `build_status_byte t c = t ||| c`, hence
`extract_channel_from_status_byte (build_status_byte t c) = (t ||| c) &&& 0x0f`,
and the channel is recovered exactly when the low nibble of `t` is zero;
with a nonzero low nibble (type byte `0xB1`, channel 0) recovery fails. -/
theorem build_status_byte_plain_or (t c : Nat) (hc : c ≤ 15) :
    bit_util.build_status_byte t ⟨c⟩ = t ||| c ∧
    bit_util.extract_channel_from_status_byte (bit_util.build_status_byte t ⟨c⟩) =
      ⟨(t ||| c) &&& 0x0f⟩ ∧
    (t &&& 0x0f = 0 →
      bit_util.extract_channel_from_status_byte (bit_util.build_status_byte t ⟨c⟩) =
        ⟨c⟩) ∧
    bit_util.extract_channel_from_status_byte
      (bit_util.build_status_byte 0xB1 ⟨0⟩) ≠ ⟨0⟩ := by
  refine ⟨rfl, rfl, ?_, by decide⟩
  intro ht
  unfold bit_util.extract_channel_from_status_byte bit_util.build_status_byte Channel.get
  have : (t ||| c) &&& 0x0f = c := by
    rw [Nat.and_distrib_right, ht, nat_and_15_eq_mod, Nat.mod_eq_of_lt (by omega)]
    simp
  rw [this]

/-- C10 witness: at type byte `0xB0` and channel 5 the status byte is the
plain OR `0xB5` and the channel is recovered exactly. -/
theorem build_status_byte_plain_or_concrete :
    bit_util.build_status_byte 0xB0 ⟨5⟩ = 0xB0 ||| 5 ∧
    bit_util.extract_channel_from_status_byte (bit_util.build_status_byte 0xB0 ⟨5⟩) =
      ⟨(0xB0 ||| 5) &&& 0x0f⟩ ∧
    (0xB0 &&& 0x0f = 0 →
      bit_util.extract_channel_from_status_byte (bit_util.build_status_byte 0xB0 ⟨5⟩) =
        ⟨5⟩) ∧
    bit_util.extract_channel_from_status_byte
      (bit_util.build_status_byte 0xB1 ⟨0⟩) ≠ ⟨0⟩ :=
  build_status_byte_plain_or 0xB0 5 (by decide)

end HelgobossMidi
